import Mathlib

/-
Verification of the logging core of the `warden` repository
(`src/telemetry/logging.rs`): the rotating file worker, the background
writer actor, the fan-out sink and the process-wide handle registration.

The embedding is shallow: the disk around the log base path is a map from
generation number to optional file contents (index 0 is the active file at
`base_path`, index `n ≥ 1` is `base_path.n`, i.e. `suffixed n` in the
source), a log record is a byte list, filesystem primitives
(`fs::remove_file`, `fs::rename`, opening in create/append mode) are pure
disk transformers, and the background actor is a recursion over the FIFO
list of commands it drains.  I/O failures that the source explicitly
ignores (`let _ = ...`) are modelled on their success path; the one
failure the actor inspects — `worker.write` returning `Err` — is modelled
by an explicit error-injection flag.
-/

set_option autoImplicit false

namespace Warden

/-- A log record: an opaque, already-formatted byte sequence
(`Vec<u8>` / `&[u8]` in the source). -/
abbrev Bytes := List Nat

/-- Disk state around the configured base path: index `0` is the active
file at `base_path`, index `n ≥ 1` is the rotated generation `base_path.n`
(`suffixed n` in the source).  `none` means the file does not exist. -/
abbrev Disk := Nat → Option Bytes

/-- `Path::exists` for the file at generation index `n`. -/
def fexists (d : Disk) (n : Nat) : Bool := (d n).isSome

/-- `fs::remove_file` at generation index `n` (success path). -/
def removeFile (d : Disk) (n : Nat) : Disk :=
  fun m => if m = n then none else d m

/-- `fs::rename src dst` (success path): the destination now holds the
source's contents, the source is gone. -/
def renameFile (d : Disk) (src dst : Nat) : Disk :=
  fun m => if m = dst then d src else if m = src then none else d m

/-- `RotatingFileWorker` (logging.rs lines 47-54).  `base_path` is
implicit in the `Disk` indexing; `file` models the open active handle. -/
structure RotatingFileWorker where
  file : Option Unit
  current_size : Nat
  max_size : Nat
  keep : Nat
  compress : Bool

/-- `RotatingFileWorker::open_new_file` (lines 74-85): open `base_path`
with create+append (contents kept if the file exists, an empty file
created otherwise), then read the resulting length into `current_size`. -/
def open_new_file (w : RotatingFileWorker) (d : Disk) :
    RotatingFileWorker × Disk :=
  let d1 := if fexists d 0 then d else fun m => if m = 0 then some [] else d m
  ({ w with file := some (), current_size := ((d1 0).getD []).length }, d1)

/-- One iteration of the generation-shift loop in
`RotatingFileWorker::rotate` (lines 92-101), at loop index `i`:
if `base_path.i` exists, first delete `base_path.(i+1)` when
`i == keep` and it exists, then rename `base_path.i` to
`base_path.(i+1)`. -/
def shiftStep (keep : Nat) (d : Disk) (i : Nat) : Disk :=
  if fexists d i then
    renameFile (if i = keep && fexists d (i + 1) then removeFile d (i + 1) else d)
      i (i + 1)
  else d

/-- The generation-shift loop `for i in (1..=keep).rev()`: run
`shiftStep` at `i = n, n-1, ..., 1`. -/
def shiftGens (keep : Nat) (d : Disk) : Nat → Disk
  | 0 => d
  | n + 1 => shiftGens keep (shiftStep keep d (n + 1)) n

/-- The disk effect of `RotatingFileWorker::rotate` (lines 87-121) before
the active file is reopened: when `keep > 0`, shift the retained
generations upward and then rename the active file to generation 1
(deleting a pre-existing generation 1 first); the compression hook on
generation 1 is a no-op in the source (`compress_file`, lines 158-162).
When `keep == 0`, delete the active file outright. -/
def rotateDisk (keep : Nat) (d : Disk) : Disk :=
  if keep > 0 then
    if fexists (shiftGens keep d keep) 0 then
      renameFile
        (if fexists (shiftGens keep d keep) 1
         then removeFile (shiftGens keep d keep) 1
         else shiftGens keep d keep) 0 1
    else shiftGens keep d keep
  else
    if fexists d 0 then removeFile d 0 else d

/-- `RotatingFileWorker::rotate` (lines 87-124): close the active handle
(`self.file.take()`), perform the disk renames, reopen a fresh active
file. -/
def rotate (w : RotatingFileWorker) (d : Disk) : RotatingFileWorker × Disk :=
  open_new_file { w with file := none } (rotateDisk w.keep d)

/-- `RotatingFileWorker::write` (lines 138-147) with an error-injection
flag for the `f.write_all(buf)` call: rotate first when the prospective
size exceeds `max_size`; then, unless the underlying write fails, append
the whole buffer to the active file and add its length to
`current_size`.  A failing `write_all` is modelled as writing nothing
(the `?` propagates before `current_size` is incremented). -/
def writeF (w : RotatingFileWorker) (d : Disk) (buf : Bytes) (fail : Bool) :
    RotatingFileWorker × Disk :=
  let p := if w.current_size + buf.length > w.max_size then rotate w d else (w, d)
  if fail then p
  else
    match p.1.file with
    | some _ =>
        ({ p.1 with current_size := p.1.current_size + buf.length },
         fun m => if m = 0 then some (((p.2) 0).getD [] ++ buf) else (p.2) m)
    | none => p

/-- `RotatingFileWorker::write` on its success path. -/
def RotatingFileWorker.write (w : RotatingFileWorker) (d : Disk) (buf : Bytes) :
    RotatingFileWorker × Disk :=
  writeF w d buf false

/-- `RotatingFileWorker::new` (lines 57-72): `create_dir_all` on the
parent (no disk effect in this model), initialise the fields, then
`open_new_file`. -/
def RotatingFileWorker.new (max_size keep : Nat) (compress : Bool) (d : Disk) :
    RotatingFileWorker × Disk :=
  open_new_file
    { file := none, current_size := 0, max_size := max_size, keep := keep,
      compress := compress } d

/-- Writing a whole sequence of records through the worker. -/
def writeAll (st : RotatingFileWorker × Disk) (bufs : List Bytes) :
    RotatingFileWorker × Disk :=
  bufs.foldl (fun p b => RotatingFileWorker.write p.1 p.2 b) st

/-! ### Basic lemmas about rotation -/

theorem shiftStep_apply_zero (keep : Nat) (d : Disk) (i : Nat) :
    shiftStep keep d (i + 1) 0 = d 0 := by
  have h1 : ¬(0 = i + 1 + 1) := by omega
  have h2 : ¬(0 = i + 1) := by omega
  unfold shiftStep
  split
  · simp only [renameFile, if_neg h1, if_neg h2]
    split
    · simp only [removeFile, if_neg h1]
    · rfl
  · rfl

theorem shiftGens_apply_zero (keep : Nat) (d : Disk) (n : Nat) :
    shiftGens keep d n 0 = d 0 := by
  induction n generalizing d with
  | zero => rfl
  | succ n ih => rw [shiftGens, ih, shiftStep_apply_zero]

theorem fexists_false_eq_none (d : Disk) (n : Nat)
    (h : ¬ fexists d n = true) : d n = none := by
  cases hh : d n with
  | none => rfl
  | some v => exact absurd (by simp [fexists, hh]) h

theorem rotateDisk_apply_zero (keep : Nat) (d : Disk) :
    rotateDisk keep d 0 = none := by
  unfold rotateDisk
  split
  · split
    · simp [renameFile]
    · rename_i h
      exact fexists_false_eq_none _ _ h
  · split
    · simp [removeFile]
    · rename_i _ h
      exact fexists_false_eq_none _ _ h

theorem rotate_spec (w : RotatingFileWorker) (d : Disk) :
    (rotate w d).1.file = some () ∧ (rotate w d).1.current_size = 0 ∧
      (rotate w d).1.max_size = w.max_size ∧ (rotate w d).1.keep = w.keep ∧
      (rotate w d).2 0 = some [] := by
  have h0 : rotateDisk w.keep d 0 = none := rotateDisk_apply_zero w.keep d
  have hfe : fexists (rotateDisk w.keep d) 0 = false := by
    simp [fexists, h0]
  unfold rotate open_new_file
  simp [hfe, h0]

/-! ### C1: retention after repeated rotation

The concrete run below starts a worker with `keep = 1` retained
generation (`max_files = 2` in the configuration) on an empty disk and
rotates twice.  The claim predicts that after the second rotation only
`base_path.1` exists and no `base_path.j` with `j > 1` exists; the shift
loop of `rotate`, however, renames `base_path.1` to `base_path.2` (it
deletes `base_path.2` first only to clear the way for that rename), so
`base_path.2` survives on disk. -/

/-- An empty disk: no file exists at the base path or any generation. -/
def emptyDisk : Disk := fun _ => none

/-- Worker and disk after `RotatingFileWorker::new` with `max_size = 10`,
`keep = 1`, no compression, on an empty disk. -/
def c1State0 : RotatingFileWorker × Disk :=
  RotatingFileWorker.new 10 1 false emptyDisk

/-- State after the first rotation. -/
def c1State1 : RotatingFileWorker × Disk := rotate c1State0.1 c1State0.2

/-- State after the second rotation. -/
def c1State2 : RotatingFileWorker × Disk := rotate c1State1.1 c1State1.2

/-- C1: the claim states that for `retained_generations k = 1`, after the
second rotation exactly `min(2, 1) = 1` rotated generation exists and no
file `base_path.j` with `j > 1` exists.  The code violates this: after the
second rotation both `base_path.1` and `base_path.2` exist, because the
shift loop renames generation `keep` to generation `keep + 1` instead of
deleting it (the `remove_file` at `i == keep` only clears the rename's
destination).  This contradicts the meaning of `keep`, documented in the
source as the number of retained history files excluding the active one. -/
theorem C1_rotation_exceeds_retained_generations :
    (c1State2.2 1).isSome = true ∧ (c1State2.2 2).isSome = true := by
  decide

/-! ### C4: reopening against a pre-existing active file -/

/-- C4: opening the worker against a base path whose file already holds
`c` leaves the file's contents alone (append mode) and sets
`current_size` to the file's true byte length — neither zero nor a
double-count. -/
theorem C4_reopen_reads_existing_length (max_size keep : Nat) (compress : Bool)
    (d : Disk) (c : Bytes) (hd : d 0 = some c) :
    (RotatingFileWorker.new max_size keep compress d).1.current_size = c.length
      ∧ (RotatingFileWorker.new max_size keep compress d).2 0 = some c := by
  have hfe : fexists d 0 = true := by simp [fexists, hd]
  unfold RotatingFileWorker.new open_new_file
  simp [hfe, hd]

/-- A disk whose active file already holds three bytes. -/
def c4Disk : Disk := fun m => if m = 0 then some [7, 7, 7] else none

theorem C4_reopen_reads_existing_length_witness :
    (RotatingFileWorker.new 100 2 true c4Disk).1.current_size = 3 ∧
      (RotatingFileWorker.new 100 2 true c4Disk).2 0 = some [7, 7, 7] :=
  C4_reopen_reads_existing_length 100 2 true c4Disk [7, 7, 7] rfl

/-! ### C2: the write/rotate contract -/

theorem write_current_size_le (w : RotatingFileWorker) (d : Disk) (buf : Bytes) :
    (RotatingFileWorker.write w d buf).1.current_size
      ≤ w.max_size + buf.length := by
  by_cases hg : w.current_size + buf.length > w.max_size
  · obtain ⟨hf, hs, hm, -, -⟩ := rotate_spec w d
    simp [RotatingFileWorker.write, writeF, hg, hf, hs, hm]
  · cases hf : w.file <;> simp [RotatingFileWorker.write, writeF, hg, hf] <;> omega

theorem write_max_size_eq (w : RotatingFileWorker) (d : Disk) (buf : Bytes) :
    (RotatingFileWorker.write w d buf).1.max_size = w.max_size := by
  by_cases hg : w.current_size + buf.length > w.max_size
  · obtain ⟨hf, -, hm, -, -⟩ := rotate_spec w d
    simp [RotatingFileWorker.write, writeF, hg, hf, hm]
  · cases hf : w.file <;> simp [RotatingFileWorker.write, writeF, hg, hf]

theorem writeAll_max_size_eq (bufs : List Bytes) (st : RotatingFileWorker × Disk) :
    (writeAll st bufs).1.max_size = st.1.max_size := by
  induction bufs generalizing st with
  | nil => rfl
  | cons b bs ih =>
      rw [writeAll, List.foldl_cons]
      exact (ih _).trans (write_max_size_eq st.1 st.2 b)

/-- C2: `write` rotates exactly when the prospective size
`current_size + len(buf)` would exceed `max_size`; in either case the
whole buffer is appended to the active file (never split or dropped, even
when it is larger than `max_size`), `current_size` grows by `len(buf)`
over the post-rotation baseline, and so after any write — hence after any
sequence of writes — the active file's size exceeds `max_size` by at most
the length of the record that triggered the last rotation. -/
theorem C2_write_rotation_contract (w : RotatingFileWorker) (d : Disk)
    (buf c : Bytes) (hf : w.file = some ()) (hd : d 0 = some c) :
    (w.current_size + buf.length ≤ w.max_size →
        (RotatingFileWorker.write w d buf).2 0 = some (c ++ buf) ∧
        (RotatingFileWorker.write w d buf).1.current_size
          = w.current_size + buf.length) ∧
    (w.current_size + buf.length > w.max_size →
        (RotatingFileWorker.write w d buf).2 0 = some buf ∧
        (RotatingFileWorker.write w d buf).1.current_size = buf.length) ∧
    (RotatingFileWorker.write w d buf).1.current_size
      ≤ w.max_size + buf.length ∧
    ∀ bufs : List Bytes,
      (writeAll (w, d) (bufs ++ [buf])).1.current_size
        ≤ w.max_size + buf.length := by
  refine ⟨fun hle => ?_, fun hgt => ?_, write_current_size_le w d buf, fun bufs => ?_⟩
  · have hg : ¬ w.current_size + buf.length > w.max_size := by omega
    simp [RotatingFileWorker.write, writeF, hg, hf, hd]
  · obtain ⟨hfr, hs, -, -, hd0⟩ := rotate_spec w d
    simp [RotatingFileWorker.write, writeF, hgt, hfr, hs, hd0]
  · rw [writeAll, List.foldl_append]
    have hb := write_current_size_le (writeAll (w, d) bufs).1
      (writeAll (w, d) bufs).2 buf
    rw [writeAll_max_size_eq bufs (w, d)] at hb
    simpa [writeAll] using hb

/-- A worker four bytes below a five-byte ceiling, about to receive a
three-byte record. -/
def c2Worker : RotatingFileWorker :=
  { file := some (), current_size := 4, max_size := 5, keep := 1,
    compress := false }

/-- The matching disk: the active file holds the four bytes. -/
def c2Disk : Disk := fun m => if m = 0 then some [9, 9, 9, 9] else none

theorem C2_write_rotation_contract_witness :
    (RotatingFileWorker.write c2Worker c2Disk [1, 2, 3]).2 0 = some [1, 2, 3] ∧
      (RotatingFileWorker.write c2Worker c2Disk [1, 2, 3]).1.current_size = 3 :=
  (C2_write_rotation_contract c2Worker c2Disk [1, 2, 3] [9, 9, 9, 9] rfl
    rfl).2.1 (by decide)

/-! ### The background writer actor -/

/-- The command protocol between producers and the background actor
(logging.rs lines 40-44). -/
inductive Cmd where
  | write (buf : Bytes)
  | flush
  | shutdown
deriving DecidableEq

/-- Observable actions of the actor loop: a successful file append, a
file flush, the stderr report of a failed write, and the brief back-off
sleep that follows such a report. -/
inductive Event where
  | fileWrite (buf : Bytes)
  | fileFlush
  | stderrReport
  | backoff
deriving DecidableEq

/-- The background actor loop (logging.rs lines 297-311): drain the FIFO
command list in order.  A `Write` whose underlying file write fails is
reported to stderr and followed by a 5 ms back-off, after which the loop
continues; `Flush` flushes the worker (its error is ignored); `Shutdown`
flushes once more and breaks out of the loop, leaving the rest of the
queue undrained.  The boolean paired with each command injects an I/O
failure into that command's `worker.write` call.  Returns the final
worker/disk state, the actor's event trace, and the commands it never
processed. -/
def runActor (w : RotatingFileWorker) (d : Disk) :
    List (Cmd × Bool) →
      (RotatingFileWorker × Disk) × List Event × List (Cmd × Bool)
  | [] => ((w, d), [], [])
  | (Cmd.write buf, fail) :: rest =>
      let st := writeF w d buf fail
      let r := runActor st.1 st.2 rest
      (r.1,
       (if fail then [Event.stderrReport, Event.backoff]
        else [Event.fileWrite buf]) ++ r.2.1,
       r.2.2)
  | (Cmd.flush, _) :: rest =>
      let r := runActor w d rest
      (r.1, Event.fileFlush :: r.2.1, r.2.2)
  | (Cmd.shutdown, _) :: rest => ((w, d), [Event.fileFlush], rest)

/-- Spec-side: the effect one pre-shutdown command should have on the
worker state — `Write` applies the worker's write, `Flush` leaves the
modelled contents unchanged. -/
def applyCmd (st : RotatingFileWorker × Disk) (c : Cmd) :
    RotatingFileWorker × Disk :=
  match c with
  | Cmd.write buf => RotatingFileWorker.write st.1 st.2 buf
  | Cmd.flush => st
  | Cmd.shutdown => st

def applyCmds (st : RotatingFileWorker × Disk) (cs : List Cmd) :
    RotatingFileWorker × Disk :=
  cs.foldl applyCmd st

/-- Spec-side: the event trace of successfully processing a command
list. -/
def cmdEvents : List Cmd → List Event
  | [] => []
  | Cmd.write buf :: r => Event.fileWrite buf :: cmdEvents r
  | Cmd.flush :: r => Event.fileFlush :: cmdEvents r
  | Cmd.shutdown :: r => cmdEvents r

/-- A command list delivered with no injected I/O failures. -/
def noFail (cs : List Cmd) : List (Cmd × Bool) := cs.map (fun c => (c, false))

/-- Spec-side: the commands after the first `Shutdown` of the queue —
per the claim, exactly the ones the actor must never process. -/
def afterFirstShutdown : List (Cmd × Bool) → List (Cmd × Bool)
  | [] => []
  | (Cmd.shutdown, _) :: rest => rest
  | (Cmd.write _, _) :: rest => afterFirstShutdown rest
  | (Cmd.flush, _) :: rest => afterFirstShutdown rest

theorem runActor_remaining (cmds : List (Cmd × Bool)) :
    ∀ (w : RotatingFileWorker) (d : Disk),
      (runActor w d cmds).2.2 = afterFirstShutdown cmds := by
  induction cmds with
  | nil => intro w d; rfl
  | cons cb rest ih =>
      intro w d
      obtain ⟨c, fail⟩ := cb
      cases c with
      | write buf => simp [runActor, afterFirstShutdown, ih]
      | flush => simp [runActor, afterFirstShutdown, ih]
      | shutdown => rfl

/-- C3: on a FIFO queue whose first `Shutdown` arrives after the
failure-free prefix `pre`, the actor applies every command of `pre` in
order (in particular every `Write` reaches the file), emits exactly the
corresponding events followed by one more flush for the `Shutdown`, and
leaves every later command unprocessed. -/
theorem C3_actor_drains_prefix_then_stops (w : RotatingFileWorker) (d : Disk)
    (pre : List Cmd) (b : Bool) (post : List (Cmd × Bool))
    (hpre : Cmd.shutdown ∉ pre) :
    runActor w d (noFail pre ++ (Cmd.shutdown, b) :: post)
      = (applyCmds (w, d) pre, cmdEvents pre ++ [Event.fileFlush], post) := by
  induction pre generalizing w d with
  | nil => simp [noFail, runActor, applyCmds, cmdEvents]
  | cons c cs ih =>
      have hc : c ≠ Cmd.shutdown := fun h => hpre (h ▸ List.mem_cons_self c cs)
      have hcs : Cmd.shutdown ∉ cs := fun h => hpre (List.mem_cons_of_mem c h)
      have hmap : noFail (c :: cs) = (c, false) :: noFail cs := rfl
      cases c with
      | write buf =>
          rw [hmap, List.cons_append]
          simp only [runActor]
          rw [ih _ _ hcs]
          simp [applyCmds, applyCmd, cmdEvents, RotatingFileWorker.write]
      | flush =>
          rw [hmap, List.cons_append]
          simp only [runActor]
          rw [ih _ _ hcs]
          simp [applyCmds, applyCmd, cmdEvents]
      | shutdown => exact absurd rfl hc

theorem C3_actor_drains_prefix_then_stops_witness :
    runActor c2Worker c2Disk
        (noFail [Cmd.write [1], Cmd.flush] ++ (Cmd.shutdown, false)
          :: [(Cmd.write [2], false)])
      = (applyCmds (c2Worker, c2Disk) [Cmd.write [1], Cmd.flush],
         cmdEvents [Cmd.write [1], Cmd.flush] ++ [Event.fileFlush],
         [(Cmd.write [2], false)]) :=
  C3_actor_drains_prefix_then_stops c2Worker c2Disk [Cmd.write [1], Cmd.flush]
    false [(Cmd.write [2], false)] (by decide)

/-- C9: a `Write` whose underlying file write fails never terminates the
actor — it emits the stderr report and the back-off, and then the loop
behaves exactly as it does on the rest of the queue from the post-failure
state; in particular the only commands left unprocessed are the ones
after the first `Shutdown`. -/
theorem C9_failed_write_never_stops_actor (w : RotatingFileWorker) (d : Disk)
    (buf : Bytes) (rest : List (Cmd × Bool)) :
    runActor w d ((Cmd.write buf, true) :: rest)
      = ((runActor (writeF w d buf true).1 (writeF w d buf true).2 rest).1,
         Event.stderrReport :: Event.backoff ::
           (runActor (writeF w d buf true).1 (writeF w d buf true).2 rest).2.1,
         afterFirstShutdown rest) := by
  simp [runActor, runActor_remaining]

/-! ### The fan-out sink -/

/-- Side effects of one fan-out call: bytes written to the console
stream, a console flush, and commands enqueued to the background actor. -/
inductive SinkEvent where
  | console (buf : Bytes)
  | consoleFlush
  | enqueue (c : Cmd)
deriving DecidableEq

/-- `MultiWriterHandle` (logging.rs lines 172-175): the per-call writer
produced by `MultiWriter::make_writer`. -/
structure MultiWriterHandle where
  to_stdout : Bool
  file_tx : Option Unit
deriving DecidableEq

/-- `MultiWriterHandle::write` (lines 177-187) with failure injection:
`consoleFails` makes the best-effort stdout write fail, `txGone` makes
the channel send fail because the actor is gone; the source discards both
results (`let _ = ...`).  Returns the `io::Result<usize>` paired with the
side effects that actually happened. -/
def MultiWriterHandle.write (h : MultiWriterHandle)
    (consoleFails txGone : Bool) (buf : Bytes) :
    Except String Nat × List SinkEvent :=
  (Except.ok buf.length,
   (if h.to_stdout then
      (if consoleFails then [] else [SinkEvent.console buf])
    else [])
     ++ (match h.file_tx with
         | some _ => if txGone then [] else [SinkEvent.enqueue (Cmd.write buf)]
         | none => []))

/-- `MultiWriterHandle::flush` (lines 188-196), same conventions. -/
def MultiWriterHandle.flush (h : MultiWriterHandle)
    (consoleFails txGone : Bool) : Except String Unit × List SinkEvent :=
  (Except.ok (),
   (if h.to_stdout then
      (if consoleFails then [] else [SinkEvent.consoleFlush])
    else [])
     ++ (match h.file_tx with
         | some _ => if txGone then [] else [SinkEvent.enqueue Cmd.flush]
         | none => []))

/-- C5: for every enablement combination and every failure combination,
the fan-out sink's write returns `Ok(len(buf))` and its flush returns
`Ok(())`; console-write failures and enqueue failures never surface to
the producer. -/
theorem C5_sink_never_fails (h : MultiWriterHandle) (cf tg : Bool)
    (buf : Bytes) :
    (MultiWriterHandle.write h cf tg buf).1 = Except.ok buf.length ∧
      (MultiWriterHandle.flush h cf tg).1 = Except.ok () :=
  ⟨rfl, rfl⟩

/-! ### Configuration and initialisation -/

/-- `LogRotationConfig` (config/schema.rs). -/
structure LogRotationConfig where
  max_size_mb : Nat
  max_files : Nat
  compress : Bool
deriving DecidableEq

/-- The logging-relevant fields of `TelemetryConfig` (config/schema.rs);
`metrics_port` and `metrics_path` are not consumed by the logging core. -/
structure TelemetryConfig where
  log_level : String
  log_format : String
  log_output : String
  log_file : String
  log_rotation : LogRotationConfig
deriving DecidableEq

/-- Rust `str::to_ascii_lowercase`: the ASCII letters A-Z (code points
65-90) map to their lowercase forms, everything else is left alone. -/
def toAsciiLowercase (s : String) : String :=
  String.mk (s.data.map (fun ch =>
    if 65 ≤ ch.toNat ∧ ch.toNat ≤ 90 then Char.ofNat (ch.toNat + 32) else ch))

/-- Rust `str::trim`: drop leading and trailing whitespace (restricted
to the ASCII whitespace `Char.isWhitespace` models). -/
def strTrim (s : String) : String :=
  String.mk (((s.data.dropWhile Char.isWhitespace).reverse.dropWhile
    Char.isWhitespace).reverse)

/-- `validate_config` (logging.rs lines 246-269), with the source's check
order and error messages.  The three enum checks compare after ASCII
lowercasing; the blank-`log_file` check compares `log_output` exactly as
written, as the source does on line 259. -/
def validate_config (cfg : TelemetryConfig) : Except String Unit :=
  if ¬(toAsciiLowercase cfg.log_level = "error" ∨
       toAsciiLowercase cfg.log_level = "warn" ∨
       toAsciiLowercase cfg.log_level = "info" ∨
       toAsciiLowercase cfg.log_level = "debug" ∨
       toAsciiLowercase cfg.log_level = "trace") then
    Except.error ("invalid log_level: " ++ toAsciiLowercase cfg.log_level)
  else if ¬(toAsciiLowercase cfg.log_format = "json" ∨
            toAsciiLowercase cfg.log_format = "plain") then
    Except.error ("invalid log_format: " ++ toAsciiLowercase cfg.log_format)
  else if ¬(toAsciiLowercase cfg.log_output = "stdout" ∨
            toAsciiLowercase cfg.log_output = "file" ∨
            toAsciiLowercase cfg.log_output = "both") then
    Except.error ("invalid log_output: " ++ toAsciiLowercase cfg.log_output)
  else if (cfg.log_output = "file" ∨ cfg.log_output = "both") ∧
          strTrim cfg.log_file = "" then
    Except.error "log_file required when output=file/both"
  else if cfg.log_rotation.max_size_mb = 0 then
    Except.error "max_size_mb must be > 0"
  else if cfg.log_rotation.max_files = 0 then
    Except.error "max_files must be > 0"
  else Except.ok ()

/-- `LoggerHandle` (logging.rs lines 210-214): whether the background
join handle is held, and whether `tx` is the real file sender (as opposed
to the dummy disconnected channel of line 342). -/
structure LoggerHandle where
  bg_present : Bool
  tx_to_file : Bool
deriving DecidableEq

/-- What `init_logging` (lines 276-346) returns and does: the result,
whether the `log-rotate-writer` thread was spawned (lines 285-314), and
whether the path at `log_file` was created or opened — that happens only
inside the spawned worker thread.  The fan-out writer wired into the
subscriber rides along in the `Ok` payload. -/
structure InitOutcome where
  res : Except String (LoggerHandle × MultiWriterHandle)
  threadStarted : Bool
  fileTouched : Bool

/-- `init_logging` (lines 276-346): validate first (line 277, `?`
returns before any thread or file work); then spawn the writer thread and
build the sender exactly when `log_output` is exactly "file" or "both"
(line 285), and point the fan-out writer at stdout exactly when
`log_output` is exactly "stdout" or "both" (line 316). -/
def init_logging (cfg : TelemetryConfig) : InitOutcome :=
  match validate_config cfg with
  | Except.error e =>
      { res := Except.error e, threadStarted := false, fileTouched := false }
  | Except.ok _ =>
      let fileOut : Bool :=
        cfg.log_output == "file" || cfg.log_output == "both"
      let toStdout : Bool :=
        cfg.log_output == "stdout" || cfg.log_output == "both"
      { res := Except.ok
          ({ bg_present := fileOut, tx_to_file := fileOut },
           { to_stdout := toStdout,
             file_tx := if fileOut then some () else none }),
        threadStarted := fileOut,
        fileTouched := fileOut }

/-- `init_global_logging` (lines 352-358) acting on the `LOGGER_HANDLE`
once-cell, modelled as explicit state: run `init_logging` and propagate
its error; otherwise try to install the fresh handle, which fails with
"Logger already initialized" when the cell is occupied and leaves the
occupant in place. -/
def init_global_logging (cfg : TelemetryConfig) (cell : Option LoggerHandle) :
    Except String LoggerHandle × Option LoggerHandle :=
  match (init_logging cfg).res with
  | Except.error e => (Except.error e, cell)
  | Except.ok hw =>
      match cell with
      | none => (Except.ok hw.1, some hw.1)
      | some h0 => (Except.error "Logger already initialized", some h0)

/-! ### C6: initialisation fails exactly on invalid configurations -/

/-- The claim's enumeration of invalid configurations: a `log_level`,
`log_format` or `log_output` outside its enum (compared after ASCII
lowercasing), a blank `log_file` while the output includes file, a zero
`max_size_mb`, or a zero `max_files`. -/
def configInvalid (cfg : TelemetryConfig) : Prop :=
  ¬(toAsciiLowercase cfg.log_level = "error" ∨
    toAsciiLowercase cfg.log_level = "warn" ∨
    toAsciiLowercase cfg.log_level = "info" ∨
    toAsciiLowercase cfg.log_level = "debug" ∨
    toAsciiLowercase cfg.log_level = "trace") ∨
  ¬(toAsciiLowercase cfg.log_format = "json" ∨
    toAsciiLowercase cfg.log_format = "plain") ∨
  ¬(toAsciiLowercase cfg.log_output = "stdout" ∨
    toAsciiLowercase cfg.log_output = "file" ∨
    toAsciiLowercase cfg.log_output = "both") ∨
  ((cfg.log_output = "file" ∨ cfg.log_output = "both") ∧
    strTrim cfg.log_file = "") ∨
  cfg.log_rotation.max_size_mb = 0 ∨
  cfg.log_rotation.max_files = 0

theorem validate_config_error_iff (cfg : TelemetryConfig) :
    (∃ e, validate_config cfg = Except.error e) ↔ configInvalid cfg := by
  unfold validate_config configInvalid
  split
  · rename_i h1
    exact ⟨fun _ => Or.inl h1, fun _ => ⟨_, rfl⟩⟩
  · rename_i h1
    split
    · rename_i h2
      exact ⟨fun _ => Or.inr (Or.inl h2), fun _ => ⟨_, rfl⟩⟩
    · rename_i h2
      split
      · rename_i h3
        exact ⟨fun _ => Or.inr (Or.inr (Or.inl h3)), fun _ => ⟨_, rfl⟩⟩
      · rename_i h3
        split
        · rename_i h4
          exact ⟨fun _ => Or.inr (Or.inr (Or.inr (Or.inl h4))),
            fun _ => ⟨_, rfl⟩⟩
        · rename_i h4
          split
          · rename_i h5
            exact ⟨fun _ => Or.inr (Or.inr (Or.inr (Or.inr (Or.inl h5)))),
              fun _ => ⟨_, rfl⟩⟩
          · rename_i h5
            split
            · rename_i h6
              exact ⟨fun _ => Or.inr (Or.inr (Or.inr (Or.inr (Or.inr h6)))),
                fun _ => ⟨_, rfl⟩⟩
            · rename_i h6
              constructor
              · rintro ⟨e, he⟩
                exact Except.noConfusion he
              · intro hinv
                rcases hinv with h | h | h | h | h | h
                · exact absurd h h1
                · exact absurd h h2
                · exact absurd h h3
                · exact absurd h h4
                · exact absurd h h5
                · exact absurd h h6

/-- C6: `init_logging` returns an error precisely for the invalid
configurations the claim enumerates, and on such an error no background
thread has been started and the log file path has not been touched
(validation runs before any of that). -/
theorem C6_init_fails_iff_invalid (cfg : TelemetryConfig) :
    ((∃ e, (init_logging cfg).res = Except.error e) ↔ configInvalid cfg) ∧
    (∀ e, (init_logging cfg).res = Except.error e →
      (init_logging cfg).threadStarted = false ∧
      (init_logging cfg).fileTouched = false) := by
  cases hval : validate_config cfg with
  | error e =>
      have hinv : configInvalid cfg :=
        (validate_config_error_iff cfg).mp ⟨e, hval⟩
      simp [init_logging, hval, hinv]
  | ok u =>
      cases u
      have hninv : ¬ configInvalid cfg := by
        rw [← validate_config_error_iff cfg]
        rintro ⟨e, he⟩
        rw [hval] at he
        cases he
      simp [init_logging, hval, hninv]

/-! ### C7: the process-wide singleton registration -/

/-- A configuration whose `log_level` fails validation. -/
def badLevelConfig : TelemetryConfig :=
  { log_level := "verbose", log_format := "json", log_output := "stdout",
    log_file := "./log/agent.log",
    log_rotation := { max_size_mb := 100, max_files := 7, compress := true } }

/-- An already-installed handle. -/
def installedHandle : LoggerHandle := { bg_present := true, tx_to_file := true }

/-- C7 counterexample: with a handle already installed, a subsequent call
whose configuration is invalid returns the configuration-validation
error, not the "already initialized" error the claim promises for every
subsequent call. -/
theorem C7_second_call_error_counterexample :
    (init_global_logging badLevelConfig (some installedHandle)).1
        = Except.error "invalid log_level: verbose" ∧
      "invalid log_level: verbose" ≠ "Logger already initialized" := by
  exact ⟨rfl, by decide⟩

/-- C7 (amended): the first successful call installs its handle; every
subsequent call fails and leaves the previously installed handle in
place, unreplaced and unmodified; the error is "Logger already
initialized" whenever the subsequent call's configuration passes
validation (otherwise it is that configuration's validation error). -/
theorem C7_singleton_install (cfg : TelemetryConfig) (h0 : LoggerHandle) :
    (∀ hw, (init_logging cfg).res = Except.ok hw →
        init_global_logging cfg none = (Except.ok hw.1, some hw.1)) ∧
    ((∃ e, (init_global_logging cfg (some h0)).1 = Except.error e) ∧
      (init_global_logging cfg (some h0)).2 = some h0) ∧
    (∀ hw, (init_logging cfg).res = Except.ok hw →
        (init_global_logging cfg (some h0)).1
          = Except.error "Logger already initialized") := by
  cases hval : (init_logging cfg).res with
  | error e => simp [init_global_logging, hval]
  | ok hw => simp [init_global_logging, hval]

/-! ### C8: stdout-only initialisation -/

/-- C8: with `log_output` exactly "stdout", no writer thread is started
and the log-file path is never created or opened; when initialisation
succeeds, the sink's writer targets the console only — its write sends
nothing to a file queue and puts the record on the console exactly when
the console write does not fail. -/
theorem C8_stdout_no_thread_no_file (cfg : TelemetryConfig)
    (hout : cfg.log_output = "stdout") :
    (init_logging cfg).threadStarted = false ∧
    (init_logging cfg).fileTouched = false ∧
    (∀ hl w, (init_logging cfg).res = Except.ok (hl, w) →
        w.to_stdout = true ∧ w.file_tx = none ∧
        ∀ (cf tg : Bool) (buf : Bytes),
          MultiWriterHandle.write w cf tg buf
            = (Except.ok buf.length,
               if cf then [] else [SinkEvent.console buf])) := by
  cases hval : validate_config cfg with
  | error e => simp [init_logging, hval]
  | ok u =>
      cases u
      have h1 : (cfg.log_output == "file") = false := by
        rw [hout]; decide
      have h2 : (cfg.log_output == "both") = false := by
        rw [hout]; decide
      have h3 : (cfg.log_output == "stdout") = true := by
        rw [hout]; decide
      refine ⟨by simp [init_logging, hval, h1, h2],
        by simp [init_logging, hval, h1, h2], ?_⟩
      intro hl w hw
      rw [init_logging] at hw
      simp only [hval, h1, h2, h3, Bool.false_or, Bool.or_false,
        Bool.or_self, if_neg Bool.false_ne_true, Except.ok.injEq,
        Prod.mk.injEq] at hw
      obtain ⟨-, hww⟩ := hw
      subst hww
      refine ⟨rfl, rfl, fun cf tg buf => ?_⟩
      simp [MultiWriterHandle.write]

/-- A valid configuration whose output is exactly "stdout". -/
def stdoutConfig : TelemetryConfig :=
  { log_level := "info", log_format := "json", log_output := "stdout",
    log_file := "./log/agent.log",
    log_rotation := { max_size_mb := 100, max_files := 7, compress := true } }

theorem C8_stdout_no_thread_no_file_witness :
    (init_logging stdoutConfig).threadStarted = false ∧
    (init_logging stdoutConfig).fileTouched = false ∧
    (∀ hl w, (init_logging stdoutConfig).res = Except.ok (hl, w) →
        w.to_stdout = true ∧ w.file_tx = none ∧
        ∀ (cf tg : Bool) (buf : Bytes),
          MultiWriterHandle.write w cf tg buf
            = (Except.ok buf.length,
               if cf then [] else [SinkEvent.console buf])) :=
  C8_stdout_no_thread_no_file stdoutConfig rfl

/-! ### C10: case-mismatched `log_output` validates but discards -/

/-- C10: a `log_output` that is a mixed- or upper-case spelling of a
valid enum value (its ASCII lowercasing is in the enum but it differs
from that lowercasing) passes validation — which lowercases — whenever
the remaining fields are valid, yet every exact-case dispatch comparison
in `init_logging` misses: no writer thread starts, the sink's writer
targets neither the console nor a file queue, and every record is
accepted (`Ok(len(buf))`) while producing no output at all. -/
theorem C10_case_mismatch_discards_records (cfg : TelemetryConfig)
    (hlow : toAsciiLowercase cfg.log_output = "stdout" ∨
            toAsciiLowercase cfg.log_output = "file" ∨
            toAsciiLowercase cfg.log_output = "both")
    (hmix : cfg.log_output ≠ toAsciiLowercase cfg.log_output)
    (hlvl : toAsciiLowercase cfg.log_level = "error" ∨
            toAsciiLowercase cfg.log_level = "warn" ∨
            toAsciiLowercase cfg.log_level = "info" ∨
            toAsciiLowercase cfg.log_level = "debug" ∨
            toAsciiLowercase cfg.log_level = "trace")
    (hfmt : toAsciiLowercase cfg.log_format = "json" ∨
            toAsciiLowercase cfg.log_format = "plain")
    (hsz : cfg.log_rotation.max_size_mb ≠ 0)
    (hnf : cfg.log_rotation.max_files ≠ 0) :
    (init_logging cfg).threadStarted = false ∧
    (∃ hl w, (init_logging cfg).res = Except.ok (hl, w) ∧
        w.to_stdout = false ∧ w.file_tx = none ∧
        ∀ (cf tg : Bool) (buf : Bytes),
          MultiWriterHandle.write w cf tg buf
            = (Except.ok buf.length, [])) := by
  have hns : cfg.log_output ≠ "stdout" := fun he => hmix (by rw [he]; decide)
  have hnfi : cfg.log_output ≠ "file" := fun he => hmix (by rw [he]; decide)
  have hnb : cfg.log_output ≠ "both" := fun he => hmix (by rw [he]; decide)
  have hval : validate_config cfg = Except.ok () := by
    unfold validate_config
    rw [if_neg (not_not_intro hlvl), if_neg (not_not_intro hfmt),
      if_neg (not_not_intro hlow),
      if_neg (fun hb => hb.1.elim hnfi hnb), if_neg hsz, if_neg hnf]
  have b1 : (cfg.log_output == "file") = false := beq_eq_false_iff_ne.mpr hnfi
  have b2 : (cfg.log_output == "both") = false := beq_eq_false_iff_ne.mpr hnb
  have b3 : (cfg.log_output == "stdout") = false := beq_eq_false_iff_ne.mpr hns
  refine ⟨by simp [init_logging, hval, b1, b2], ?_⟩
  refine ⟨{ bg_present := false, tx_to_file := false },
    { to_stdout := false, file_tx := none }, ?_, rfl, rfl,
    fun cf tg buf => by simp [MultiWriterHandle.write]⟩
  simp [init_logging, hval, b1, b2, b3]

/-- A configuration whose output is the upper-case spelling "BOTH". -/
def bothUppercaseConfig : TelemetryConfig :=
  { log_level := "info", log_format := "json", log_output := "BOTH",
    log_file := "./log/agent.log",
    log_rotation := { max_size_mb := 100, max_files := 7, compress := true } }

theorem C10_case_mismatch_discards_records_witness :
    (init_logging bothUppercaseConfig).threadStarted = false ∧
    (∃ hl w, (init_logging bothUppercaseConfig).res = Except.ok (hl, w) ∧
        w.to_stdout = false ∧ w.file_tx = none ∧
        ∀ (cf tg : Bool) (buf : Bytes),
          MultiWriterHandle.write w cf tg buf
            = (Except.ok buf.length, [])) :=
  C10_case_mismatch_discards_records bothUppercaseConfig (by decide)
    (by decide) (by decide) (by decide) (by decide) (by decide)

end Warden
